import Mathlib

set_option linter.unusedVariables false

/-!
Shallow embedding of the `corner-smoothing` repository
(`src/corner-smoothing-vanilla.esm.js`, `src/init.iife.js`,
`src/unnamed/part_000`, `src/unnamed/part_001`).

Numbers are modelled as exact rationals (`ℚ`); the SVG path string is
modelled as the list of path commands with their numeric coordinates, in
the order the template literal emits them.  DOM state touched by the
renderers (class list, style elements in `document.head`, inline
`clip-path`, `position`) is modelled as explicit record state for a single
tracked element, and the module-level `squircleCounter` is a field of that
state.
-/

namespace CornerSmoothing

/-- The cubic circle constant `0.552284749831` used by every `getSvgPath`
variant in the repository (named `K` in the fixed ESM variant). -/
def K : ℚ := 552284749831 / 1000000000000

/-- Model of JS `Math.min(a, b)` on two exact rationals (non-NaN
arguments), written with an explicit `if` so that the kernel can evaluate
it on concrete inputs. -/
def qmin (a b : ℚ) : ℚ := if a ≤ b then a else b

/-- Model of JS `Math.max(a, b)` on two exact rationals (non-NaN
arguments). -/
def qmax (a b : ℚ) : ℚ := if b ≤ a then a else b

/-- One SVG path command, as emitted by the template literal in
`getSvgPath`: `M x,y`, `L x,y`, `C x1,y1 x2,y2 x,y`, `Z`. -/
inductive PathCmd where
  | moveTo (x y : ℚ)
  | lineTo (x y : ℚ)
  | curveTo (x1 y1 x2 y2 x y : ℚ)
  | closePath
deriving DecidableEq, Repr

/-- Embedding of `getSvgPath({width, height, cornerRadius, cornerSmoothing,
preserveSmoothing = true})` from `src/corner-smoothing-vanilla.esm.js`
lines 5–23 (the same function body appears in the fixed ESM variant,
`src/init.iife.js` and both `src/unnamed` parts).  The source computes
`r = Math.min(cornerRadius, width/2, height/2)`,
`cp = r * (1 - smoothing * 0.552284749831)` (it also computes an unused
`cpSmooth = r * smoothing * 0.552284749831`) and returns the template
literal `M r,0 L w-r,0 C w-cp,0 w,cp w,r ... Z`; we return the command
list carrying the same coordinates in the same order.
`preserveSmoothing` is accepted (with default `true`) and never read. -/
def getSvgPath (width height cornerRadius cornerSmoothing : ℚ)
    (preserveSmoothing : Bool := true) : List PathCmd :=
  let r := qmin cornerRadius (qmin (width / 2) (height / 2))
  let smoothing := cornerSmoothing
  let cp := r * (1 - smoothing * K)
  [ .moveTo r 0,
    .lineTo (width - r) 0,
    .curveTo (width - cp) 0 width cp width r,
    .lineTo width (height - r),
    .curveTo width (height - cp) (width - cp) height (width - r) height,
    .lineTo r height,
    .curveTo cp height 0 (height - cp) 0 (height - r),
    .lineTo 0 r,
    .curveTo 0 cp cp 0 r 0,
    .closePath ]

/-- The effective corner radius `r = Math.min(cornerRadius, width/2,
height/2)` computed at the top of every `getSvgPath` variant. -/
def effectiveRadius (width height cornerRadius : ℚ) : ℚ :=
  qmin cornerRadius (qmin (width / 2) (height / 2))

/-- The straight-segment control offset `cp = r * (1 - smoothing * K)`
computed by every `getSvgPath` variant. -/
def controlOffset (r smoothing : ℚ) : ℚ :=
  r * (1 - smoothing * K)

/-!
## Renderer state

Both `renderSquircle` variants act on a single tracked element.  The DOM
facts a render touches are modelled explicitly: the element's
`squircle-N` marker classes (as the counter values `N`), its inline
`clip-path`, whether its computed `position` is `static`, and the
`<style id="squircle-style-squircle-N">` elements in `document.head`
(as an id-keyed association list of rule contents).  The module-level
`squircleCounter` is a further state field.
-/

/-- Contents of one auxiliary `::before` style rule: the inset offset
(`top`/`left` in the naive variant, `inset` in the fixed variant — the
same `borderWidth` value), the inner overlay size, and its inner clip
path. -/
structure AuxStyle where
  offset : ℚ
  width : ℚ
  height : ℚ
  clipPath : List PathCmd
deriving DecidableEq, Repr

/-- Options object accepted by the naive `renderSquircle`
(`src/corner-smoothing-vanilla.esm.js` lines 31–37): `borderWidth` may be
absent (`undefined`), modelled as `none`. -/
structure Options where
  cornerRadius : ℚ
  cornerSmoothing : ℚ
  preserveSmoothing : Bool
  borderWidth : Option ℚ
deriving DecidableEq, Repr

/-- `element.classList.add(c)`: appends the token unless present. -/
def classListAdd (cl : List ℕ) (c : ℕ) : List ℕ :=
  if c ∈ cl then cl else cl ++ [c]

/-- `element.classList.remove(c)`: removes the token wherever present. -/
def classListRemove (cl : List ℕ) (c : ℕ) : List ℕ :=
  cl.filter (fun x => x ≠ c)

/-- `document.getElementById` followed by either a `textContent` update
or `createElement` + `appendChild`: update the record stored under `id`
if one exists, otherwise append a new one (naive border branch, lines
93–98 of `src/corner-smoothing-vanilla.esm.js`). -/
def upsertStyleById (styles : List (ℕ × AuxStyle)) (id : ℕ) (a : AuxStyle) :
    List (ℕ × AuxStyle) :=
  if (styles.lookup id).isSome then
    styles.map (fun p => if p.1 = id then (id, a) else p)
  else styles ++ [(id, a)]

/-- World state for the naive `renderSquircle` variant
(`src/corner-smoothing-vanilla.esm.js` lines 26–125; identical logic in
`src/init.iife.js` lines 29–128 and `src/unnamed/part_000` lines 42–127):
the global `squircleCounter`, the element's marker classes, its inline
`clip-path`, whether its computed position is still `static`, and the
auxiliary style elements in `document.head`. -/
structure NaiveWorld where
  counter : ℕ
  classes : List ℕ
  clipPath : Option (List PathCmd)
  posStatic : Bool
  styles : List (ℕ × AuxStyle)
deriving DecidableEq, Repr

/-- Fresh page: counter 0, no classes, no inline clip path, computed
position `static`, no auxiliary style elements. -/
def NaiveWorld.init : NaiveWorld :=
  { counter := 0, classes := [], clipPath := none, posStatic := true, styles := [] }

/-- Embedding of the naive `renderSquircle(element, options)`
(`src/corner-smoothing-vanilla.esm.js` lines 31–125).  `supports` is the
result of the `CSS.supports` check; `width`/`height` are the element's
measured box size (`getBoundingClientRect`).  The border branch runs when
`borderWidth && borderWidth > 0` (truthy and positive); it allocates a
fresh `squircle-N` class from `++squircleCounter` on every call, adds it
to the class list, applies the outer path as `clip-path`, computes the
inner dimensions with `Math.max(0, ...)`, upserts the style element keyed
by the fresh class name, and forces `position: relative` when the
computed position is `static`.  The simple branch only sets `clip-path`. -/
def renderSquircleNaive (supports : Bool) (width height : ℚ) (o : Options)
    (w : NaiveWorld) : NaiveWorld :=
  if supports = false then w
  else if width ≤ 0 ∨ height ≤ 0 then w
  else
    let svgPath := getSvgPath width height o.cornerRadius o.cornerSmoothing o.preserveSmoothing
    match o.borderWidth with
    | some b =>
      if b ≠ 0 ∧ 0 < b then
        let className := w.counter + 1
        let classes := classListAdd w.classes className
        let outerPath := getSvgPath width height o.cornerRadius o.cornerSmoothing o.preserveSmoothing
        let innerWidth := qmax 0 (width - b * 2)
        let innerHeight := qmax 0 (height - b * 2)
        let innerRadius := qmax 0 (o.cornerRadius - b)
        let innerPath := getSvgPath innerWidth innerHeight innerRadius o.cornerSmoothing o.preserveSmoothing
        { counter := className, classes := classes, clipPath := some outerPath,
          posStatic := false,
          styles := upsertStyleById w.styles className ⟨b, innerWidth, innerHeight, innerPath⟩ }
      else { w with clipPath := some svgPath }
    | none => { w with clipPath := some svgPath }

/-- Options object of the fixed ESM variant
(`src/corner-smoothing-vanilla.esm.js` lines 227–233), with its
destructuring defaults `cornerSmoothing = 1`, `preserveSmoothing = true`,
`borderWidth = 0`. -/
structure FixedOptions where
  cornerRadius : ℚ
  cornerSmoothing : ℚ := 1
  preserveSmoothing : Bool := true
  borderWidth : ℚ := 0
deriving DecidableEq, Repr

/-- World state for the fixed `renderSquircle` variant: the per-element
weak maps `CLASS_MAP`, `STYLE_MAP` (style-element id plus current rule
contents) and `SIZE_MAP`, besides the fields of `NaiveWorld`. -/
structure FixedWorld where
  counter : ℕ
  classMap : Option ℕ
  styleMap : Option (ℕ × AuxStyle)
  sizeMap : Option (ℚ × ℚ)
  classes : List ℕ
  clipPath : Option (List PathCmd)
  posStatic : Bool
deriving DecidableEq, Repr

/-- Fresh page for the fixed variant. -/
def FixedWorld.init : FixedWorld :=
  { counter := 0, classMap := none, styleMap := none, sizeMap := none,
    classes := [], clipPath := none, posStatic := true }

/-- Embedding of `upsertBorderStyle(el, className, innerPath, innerWidth,
innerHeight, borderWidth)` (fixed variant lines 199–221): reuse the
cached style element if present (its id keeps the value assigned at
creation time), else create one with id derived from `className`; then
overwrite its `textContent`. -/
def upsertBorderStyle (w : FixedWorld) (className : ℕ) (innerPath : List PathCmd)
    (innerWidth innerHeight borderWidth : ℚ) : FixedWorld :=
  let id := match w.styleMap with
    | some (i, _) => i
    | none => className
  { w with styleMap := some (id, ⟨borderWidth, innerWidth, innerHeight, innerPath⟩) }

/-- Embedding of the fixed `renderSquircle(element, options)`
(`src/corner-smoothing-vanilla.esm.js` lines 227–301).  `width`/`height`
are `element.clientWidth`/`clientHeight`.  After the support and size
guards it records the size in `SIZE_MAP` (the unchanged-size check in the
source compares but deliberately continues).  Border mode (`borderWidth >
0`) allocates a class name only when `CLASS_MAP` has none, applies the
outer clip path, computes inner dimensions, forces `position: relative`
off `static`, and upserts the single cached style element.  Simple mode
removes any cached class and style element and clears both maps before
applying the outer clip path. -/
def renderSquircleFixed (supports : Bool) (width height : ℚ) (o : FixedOptions)
    (w : FixedWorld) : FixedWorld :=
  if supports = false then w
  else if width ≤ 0 ∨ height ≤ 0 then w
  else
    let w1 : FixedWorld := { w with sizeMap := some (width, height) }
    let outerPath := getSvgPath width height o.cornerRadius o.cornerSmoothing o.preserveSmoothing
    if 0 < o.borderWidth then
      let className := match w1.classMap with
        | some c => c
        | none => w1.counter + 1
      let w2 : FixedWorld := match w1.classMap with
        | some _ => w1
        | none =>
          { w1 with counter := w1.counter + 1, classMap := some (w1.counter + 1),
                    classes := classListAdd w1.classes (w1.counter + 1) }
      let innerWidth := qmax 0 (width - o.borderWidth * 2)
      let innerHeight := qmax 0 (height - o.borderWidth * 2)
      let innerRadius := qmax 0 (o.cornerRadius - o.borderWidth)
      let innerPath := getSvgPath innerWidth innerHeight innerRadius o.cornerSmoothing o.preserveSmoothing
      let w3 : FixedWorld := { w2 with clipPath := some outerPath, posStatic := false }
      upsertBorderStyle w3 className innerPath innerWidth innerHeight o.borderWidth
    else
      match w1.classMap with
      | some c =>
        { w1 with classes := classListRemove w1.classes c, classMap := none,
                  styleMap := none, clipPath := some outerPath }
      | none => { w1 with clipPath := some outerPath }

/-!
## Init helper module (`src/init.iife.js`, `src/unnamed/part_000`)
-/

/-- World state for one element as seen by the init helper module: the
`elementObservers` weak-map entry (`tracked`), whether the stored
`ResizeObserver` is still connected, the element's inline `clip-path`,
the `--squircle-inner-bg` custom property, its `squircle-N` marker
classes, its unrelated classes, and the `squircle-style-*` style elements
in `document.head`. -/
structure InitWorld where
  tracked : Bool
  observerConnected : Bool
  clipPath : Option (List PathCmd)
  innerBg : Option String
  squircleClasses : List ℕ
  otherClasses : List String
  styles : List (ℕ × AuxStyle)
deriving DecidableEq, Repr

/-- Embedding of `disconnect(element)` (`src/init.iife.js` lines
296–320).  When the element has an `elementObservers` entry: disconnect
the observer, delete the entry, set `style.clipPath = ''`, remove the
`--squircle-inner-bg` property, then for every class starting with
`squircle-` remove it from the class list and remove the style element
whose id is `squircle-style-` + that class.  Otherwise do nothing. -/
def disconnect (w : InitWorld) : InitWorld :=
  if w.tracked then
    { tracked := false
      observerConnected := false
      clipPath := none
      innerBg := none
      squircleClasses := []
      otherClasses := w.otherClasses
      styles := w.styles.filter (fun p => !(w.squircleClasses.contains p.1)) }
  else w

/-!
## JS numeric and string primitives used by the init helper
-/

/-- ASCII whitespace recognised by the JS trimming and `parseFloat`
steps modelled here (space, tab, newline, carriage return — the cases
exercised by this code). -/
def jsWhitespace (c : Char) : Bool :=
  c = ' ' ∨ c = '\t' ∨ c = '\n' ∨ c = '\r'

/-- Value of a list of decimal digit characters. -/
def digitsVal (ds : List Char) : ℕ :=
  ds.foldl (fun a c => a * 10 + (c.toNat - 48)) 0

/-- Exact value of `10^e` for an integer exponent. -/
def pow10 (e : ℤ) : ℚ :=
  if 0 ≤ e then (10 : ℚ) ^ e.toNat else 1 / (10 : ℚ) ^ (-e).toNat

/-- Exponent part of a JS decimal literal: the characters after `e`/`E`,
an optional sign followed by digits; an invalid exponent part contributes
nothing (exponent 0), as in `parseFloat("1e+")`. -/
def parseExp (rest : List Char) : ℤ :=
  match rest with
  | '+' :: r =>
    let ed := r.takeWhile Char.isDigit
    if ed.isEmpty then 0 else (digitsVal ed : ℤ)
  | '-' :: r =>
    let ed := r.takeWhile Char.isDigit
    if ed.isEmpty then 0 else -(digitsVal ed : ℤ)
  | r =>
    let ed := r.takeWhile Char.isDigit
    if ed.isEmpty then 0 else (digitsVal ed : ℤ)

/-- Unsigned part of JS `parseFloat`: longest prefix `Digits [. Digits]
[Exponent]` (also `. Digits`); `none` when no digit is found (NaN).
Trailing junk such as `px` is ignored, so `parseFloat("0px") = 0`. -/
def parseFloatCore (cs : List Char) : Option ℚ :=
  let ip := cs.takeWhile Char.isDigit
  let r1 := cs.dropWhile Char.isDigit
  let fp := match r1 with
    | '.' :: rest => rest.takeWhile Char.isDigit
    | _ => []
  let r2 := match r1 with
    | '.' :: rest => rest.dropWhile Char.isDigit
    | _ => r1
  if ip.isEmpty ∧ fp.isEmpty then none
  else
    let mantissa : ℚ := (digitsVal ip : ℚ) + (digitsVal fp : ℚ) / (10 : ℚ) ^ fp.length
    let e : ℤ := match r2 with
      | 'e' :: rest => parseExp rest
      | 'E' :: rest => parseExp rest
      | _ => 0
    some (mantissa * pow10 e)

/-- Model of JS `parseFloat` on the finite decimal strings this code
meets: skip leading whitespace, optional sign, then the unsigned part;
`none` models `NaN` (the `Infinity` spelling is not modelled). -/
def parseFloatModel (s : String) : Option ℚ :=
  let cs := s.data.dropWhile jsWhitespace
  match cs with
  | '+' :: rest => parseFloatCore rest
  | '-' :: rest => (parseFloatCore rest).map Neg.neg
  | _ => parseFloatCore cs

/-- JS `x || d` applied to a `parseFloat` result: `NaN` (`none`) and `0`
are falsy and fall back to the default. -/
def jsOr (v : Option ℚ) (d : ℚ) : ℚ :=
  match v with
  | none => d
  | some x => if x = 0 then d else x

/-- `Math.max(0, Math.min(1, x))` from `initializeElement`. -/
def clamp01 (x : ℚ) : ℚ := qmax 0 (qmin 1 x)

/-- Truthiness of a `getAttribute` result: `null` (`none`) and the empty
string are falsy. -/
def attrTruthy : Option String → Bool
  | none => false
  | some s => !(s == "")

/-- The shape options `initializeElement` derives before the border and
background probes. -/
structure DerivedOptions where
  cornerRadius : ℚ
  cornerSmoothing : ℚ
deriving DecidableEq, Repr

/-- Embedding of the derivation part of `initializeElement(element)`
(`src/init.iife.js` lines 222–246, identical in `src/unnamed/part_000`
lines 173–187): skip when already tracked; skip when the
`data-corner-smoothing` attribute is falsy; otherwise
`cornerSmoothing = Math.max(0, Math.min(1, parseFloat(attr) || 1))` and
`cornerRadius = parseFloat(radiusAttr) || 16` when the radius attribute
is truthy, else `parseFloat(computed.borderTopLeftRadius) || 16`.
`computedRadius` is the computed `borderTopLeftRadius` string. -/
def initializeElement (tracked : Bool) (csAttr crAttr : Option String)
    (computedRadius : String) : Option DerivedOptions :=
  if tracked then none
  else if attrTruthy csAttr = false then none
  else
    let cornerSmoothing := clamp01 (jsOr (parseFloatModel (csAttr.getD "")) 1)
    let cornerRadius :=
      if attrTruthy crAttr then jsOr (parseFloatModel (crAttr.getD "")) 16
      else jsOr (parseFloatModel computedRadius) 16
    some { cornerRadius := cornerRadius, cornerSmoothing := cornerSmoothing }

/-!
## The two `isTransparentColor` implementations

`src/unnamed/part_000` lines 142–150 matches the regex
`rgba?\(([^)]+)\)` case-insensitively.  `src/init.iife.js` lines 156–171
instead contains the regex literal `/rgba?\\(([^)]+)\\)/`: in a regex
literal `\\` matches one literal backslash character, so this pattern is
`rgb`/`rgba`, a literal backslash, a capture of one-or-more non-`)`
characters, and another literal backslash, and its group 1 is the capture
followed by the closing backslash.  Both matchers are embedded below
with JS first-match and greedy-with-backtracking semantics.
-/

/-- Character comparison against a lowercase target, optionally
case-insensitive (the `/i` flag of the `part_000` regex). -/
def eqCI (ci : Bool) (c target : Char) : Bool :=
  if ci then c.toLower = target else c = target

/-- Tail matcher for `\(([^)]+)\)` after the opening parenthesis: the
greedy run of non-`)` characters, which must be nonempty and followed by
`)`; yields group 1. -/
def captureParen (cs : List Char) : Option (List Char) :=
  let content := cs.takeWhile (fun c => c ≠ ')')
  if content.isEmpty then none
  else match cs.dropWhile (fun c => c ≠ ')') with
    | ')' :: _ => some content
    | _ => none

/-- Largest index `k ≥ 1` holding a backslash, within the maximal
non-`)` run: the greedy backtracking point for `[^)]+` followed by a
literal backslash. -/
def lastSplitBS (m : List Char) : Option ℕ :=
  ((List.range m.length).filter
    (fun k => decide (1 ≤ k ∧ m.get? k = some '\\'))).getLast?

/-- Tail matcher for the doubled-backslash regex after its first literal
backslash: `([^)]+)` then a literal backslash, greedily; group 1 of the
whole regex is the capture together with that closing backslash. -/
def matchTailBS (cs : List Char) : Option (List Char) :=
  let m := cs.takeWhile (fun c => c ≠ ')')
  match lastSplitBS m with
  | some k => some (m.take k ++ ['\\'])
  | none => none

/-- Dispatch between the two tail shapes: `useBS = true` for the
doubled-backslash regex of `src/init.iife.js`, `false` for the paren
regex of `src/unnamed/part_000`. -/
def matchTail (useBS : Bool) (cs : List Char) : Option (List Char) :=
  if useBS then matchTailBS cs else captureParen cs

/-- Try to match the rgba regex at the start of `cs`: `rgb`, greedy
optional `a`, then the opener (a literal `(`, or a literal backslash for
the doubled-backslash regex), then the tail.  Returns group 1. -/
def matchRgbaFrom (ci useBS : Bool) (cs : List Char) : Option (List Char) :=
  match cs with
  | c1 :: c2 :: c3 :: rest =>
    if eqCI ci c1 'r' && eqCI ci c2 'g' && eqCI ci c3 'b' then
      let opener : Char := if useBS then '\\' else '('
      match rest with
      | c4 :: rest2 =>
        if eqCI ci c4 'a' then
          match rest2 with
          | c5 :: rest3 => if c5 = opener then matchTail useBS rest3 else none
          | [] => none
        else if c4 = opener then matchTail useBS rest2
        else none
      | [] => none
    else none
  | _ => none

/-- First match of the rgba regex anywhere in the string (JS
`String.prototype.match` with a non-global regex), returning group 1. -/
def searchRgba (ci useBS : Bool) : List Char → Option (List Char)
  | [] => none
  | c :: cs =>
    match matchRgbaFrom ci useBS (c :: cs) with
    | some g => some g
    | none => searchRgba ci useBS cs

/-- JS `v.trim()` on a character list. -/
def jsTrimList (cs : List Char) : List Char :=
  ((cs.dropWhile jsWhitespace).reverse.dropWhile jsWhitespace).reverse

/-- JS `String.prototype.split(',')` (helper with accumulator). -/
def splitCommaAux : List Char → List Char → List (List Char)
  | [], acc => [acc.reverse]
  | ',' :: rest, acc => acc.reverse :: splitCommaAux rest []
  | c :: rest, acc => splitCommaAux rest (c :: acc)

/-- JS `String.prototype.split(',')`. -/
def splitComma (cs : List Char) : List (List Char) :=
  splitCommaAux cs []

/-- The shared alpha test on a captured group:
`values = group.split(',').map(v => v.trim())`, then
`values.length === 4 && parseFloat(values[3]) === 0` (`NaN === 0` is
false, so `none` fails the test). -/
def alphaZero (group : List Char) : Bool :=
  let values := (splitComma group).map jsTrimList
  if values.length = 4 then
    parseFloatModel ⟨values.getD 3 []⟩ == some (0 : ℚ)
  else false

/-- Embedding of `isTransparentColor(color)` from `src/init.iife.js`
lines 156–171: true for falsy values, the literal `transparent`, the
literal `rgba(0, 0, 0, 0)`, or when the doubled-backslash regex
(case-sensitive) matches and its group 1 passes the alpha-zero test. -/
def isTransparentColorInit (color : Option String) : Bool :=
  match color with
  | none => true
  | some c =>
    if c = "" then true
    else if c = "transparent" then true
    else if c = "rgba(0, 0, 0, 0)" then true
    else match searchRgba false true c.data with
      | some g => alphaZero g
      | none => false

/-- Embedding of `isTransparentColor(color)` from `src/unnamed/part_000`
lines 142–150: same structure, but the regex is `rgba?\(([^)]+)\)` with
the `/i` flag. -/
def isTransparentColorPart0 (color : Option String) : Bool :=
  match color with
  | none => true
  | some c =>
    if c = "" then true
    else if c = "transparent" then true
    else if c = "rgba(0, 0, 0, 0)" then true
    else match searchRgba true false c.data with
      | some g => alphaZero g
      | none => false

/-!
## Concrete scenarios
-/

/-- Options of the border-mode concrete scenario:
`{cornerRadius: 10, cornerSmoothing: 1, borderWidth: 4}`. -/
def borderOptions : Options :=
  { cornerRadius := 10, cornerSmoothing := 1, preserveSmoothing := true,
    borderWidth := some 4 }

/-- The same shape options without `borderWidth` (simple mode). -/
def simpleOptions : Options :=
  { cornerRadius := 10, cornerSmoothing := 1, preserveSmoothing := true,
    borderWidth := none }

/-- One naive border-mode render of a fresh 100×50 element. -/
def naiveAfterOne : NaiveWorld :=
  renderSquircleNaive true 100 50 borderOptions NaiveWorld.init

/-- A second identical naive border-mode render (same size, same
options). -/
def naiveAfterTwo : NaiveWorld :=
  renderSquircleNaive true 100 50 borderOptions naiveAfterOne

/-- A naive simple-mode render following the border-mode render. -/
def naiveBorderThenSimple : NaiveWorld :=
  renderSquircleNaive true 100 50 simpleOptions naiveAfterOne

/-- A tracked element as the init module leaves it after one border-mode
render: observer connected, clip path applied, inner background set, one
`squircle-1` marker class with its style element. -/
def sampleInitWorld : InitWorld :=
  { tracked := true, observerConnected := true,
    clipPath := some (getSvgPath 100 50 10 1 true), innerBg := some "red",
    squircleClasses := [1], otherClasses := ["card"],
    styles := [(1, ⟨4, 92, 42, getSvgPath 92 42 6 1 true⟩)] }

/-!
## Theorems
-/

/-- Claim C1: for every width > 0, height > 0 and cornerRadius ≥ 0 the
outline produced by `getSvgPath` is built from the effective radius
`r = min(cornerRadius, width/2, height/2)` and the control offset
`cp = r * (1 - cornerSmoothing * K)`; in particular
`generateOutline(100,100,20,1)` uses effective radius 20, control offset
`20 * (1 - 0.552284749831)`, starts at `(20,0)` and its first straight
edge ends at `(80,0)`. -/
theorem getSvgPath_effective_radius_spec (w h cr cs : ℚ) (p : Bool)
    (hw : 0 < w) (hh : 0 < h) (hr : 0 ≤ cr) :
    getSvgPath w h cr cs p =
      [ .moveTo (effectiveRadius w h cr) 0,
        .lineTo (w - effectiveRadius w h cr) 0,
        .curveTo (w - controlOffset (effectiveRadius w h cr) cs) 0
          w (controlOffset (effectiveRadius w h cr) cs) w (effectiveRadius w h cr),
        .lineTo w (h - effectiveRadius w h cr),
        .curveTo w (h - controlOffset (effectiveRadius w h cr) cs)
          (w - controlOffset (effectiveRadius w h cr) cs) h
          (w - effectiveRadius w h cr) h,
        .lineTo (effectiveRadius w h cr) h,
        .curveTo (controlOffset (effectiveRadius w h cr) cs) h
          0 (h - controlOffset (effectiveRadius w h cr) cs)
          0 (h - effectiveRadius w h cr),
        .lineTo 0 (effectiveRadius w h cr),
        .curveTo 0 (controlOffset (effectiveRadius w h cr) cs)
          (controlOffset (effectiveRadius w h cr) cs) 0
          (effectiveRadius w h cr) 0,
        .closePath ] ∧
    effectiveRadius 100 100 20 = 20 ∧
    controlOffset 20 1 = 20 * (1 - K) ∧
    (getSvgPath 100 100 20 1 true).head? = some (.moveTo 20 0) ∧
    (getSvgPath 100 100 20 1 true).get? 1 = some (.lineTo 80 0) :=
  ⟨rfl, by with_unfolding_all rfl, by with_unfolding_all rfl,
   by with_unfolding_all rfl, by with_unfolding_all rfl⟩

/-- Witness for C1 at the concrete scenario (100, 100, 20, 1). -/
theorem getSvgPath_effective_radius_spec_witness :
    (0 : ℚ) < 100 ∧ (0 : ℚ) ≤ 20 ∧
    (getSvgPath 100 100 20 1 true).head? = some (.moveTo 20 0) :=
  ⟨by norm_num, by norm_num,
   (getSvgPath_effective_radius_spec 100 100 20 1 true (by norm_num)
     (by norm_num) (by norm_num)).2.2.2.1⟩

/-- Claim C7: `getSvgPath` is a pure function of (width, height,
cornerRadius, cornerSmoothing); `preserveSmoothing` never changes the
computed outline. -/
theorem getSvgPath_ignores_preserveSmoothing (width height cr cs : ℚ) (p1 p2 : Bool) :
    getSvgPath width height cr cs p1 = getSvgPath width height cr cs p2 := rfl

/-- Claim C3 (failing evaluation): two identical border-mode renders of
the naive `renderSquircle` on an unchanged 100×50 element produce the
same outline, but allocate a second `squircle-N` identifier and a second
auxiliary style element instead of reusing the first. -/
theorem naive_border_rerender_duplicates :
    naiveAfterTwo.counter = 2 ∧
    naiveAfterTwo.classes = [1, 2] ∧
    naiveAfterTwo.styles.map Prod.fst = [1, 2] ∧
    naiveAfterTwo.clipPath = naiveAfterOne.clipPath :=
  ⟨by with_unfolding_all rfl, by with_unfolding_all rfl,
   by with_unfolding_all rfl, by with_unfolding_all rfl⟩

/-- Claim C4 (failing evaluation): a simple-mode render of the naive
`renderSquircle` after a border-mode render applies the outer clip path
but leaves the border-mode marker class and its auxiliary style element
in place. -/
theorem naive_simple_render_leaves_border_residue :
    naiveBorderThenSimple.classes = [1] ∧
    naiveBorderThenSimple.styles.map Prod.fst = [1] ∧
    naiveBorderThenSimple.clipPath = some (getSvgPath 100 50 10 1 true) :=
  ⟨by with_unfolding_all rfl, by with_unfolding_all rfl,
   by with_unfolding_all rfl⟩

/-- Claim C10 (failing evaluation): the two `isTransparentColor`
implementations disagree on `rgba(1, 2, 3, 0)`: the `src/init.iife.js`
version returns false (its doubled-backslash regex cannot match a real
`rgba(...)` color), the `src/unnamed/part_000` version returns true. -/
theorem isTransparentColor_variants_disagree :
    isTransparentColorInit (some "rgba(1, 2, 3, 0)") = false ∧
    isTransparentColorPart0 (some "rgba(1, 2, 3, 0)") = true :=
  ⟨by with_unfolding_all rfl, by with_unfolding_all rfl⟩

/-- Claim C2 (failing part): with `cornerSmoothing = 0` the first corner
curve of `generateOutline(100,100,20,0)` is `C 80,0 100,20 100,20` — its
first control point coincides with the curve start `(80,0)` — whereas a
standard circular-arc approximation requires that control point at
distance `r*K` from the start along the tangent, at x-coordinate
`80 + 20*K`. -/
theorem smoothing_zero_not_circular_arc :
    (getSvgPath 100 100 20 0 true).get? 2 = some (.curveTo 80 0 100 20 100 20) ∧
    (100 : ℚ) - controlOffset 20 0 ≠ (100 - 20) + 20 * K :=
  ⟨by with_unfolding_all rfl, by norm_num [controlOffset, K]⟩

/-- Claim C2 (amended): with `cornerSmoothing = 0` the control offset is
`cp = r`, so both control points coincide with the curve endpoints
(distance 0, a degenerate straight-cut corner); with `cornerSmoothing =
1` the control offset is `cp = r*(1-K)`, placing the control points at
distance `r*K` from the endpoints — the standard 4-cubic circular-arc
approximation. -/
theorem controlOffset_extremes (w h cr : ℚ) (p : Bool)
    (hw : 0 < w) (hh : 0 < h) (hr : 0 ≤ cr) :
    controlOffset (effectiveRadius w h cr) 0 = effectiveRadius w h cr ∧
    effectiveRadius w h cr - controlOffset (effectiveRadius w h cr) 0 = 0 ∧
    controlOffset (effectiveRadius w h cr) 1 = effectiveRadius w h cr * (1 - K) ∧
    effectiveRadius w h cr - controlOffset (effectiveRadius w h cr) 1 =
      effectiveRadius w h cr * K ∧
    (getSvgPath w h cr 0 p).get? 2 =
      some (.curveTo (w - effectiveRadius w h cr) 0 w (effectiveRadius w h cr)
        w (effectiveRadius w h cr)) ∧
    (getSvgPath w h cr 1 p).get? 2 =
      some (.curveTo (w - effectiveRadius w h cr * (1 - K)) 0
        w (effectiveRadius w h cr * (1 - K)) w (effectiveRadius w h cr)) := by
  refine ⟨?_, ?_, ?_, ?_, ?_, ?_⟩
  · unfold controlOffset; ring
  · unfold controlOffset; ring
  · unfold controlOffset; ring
  · unfold controlOffset; ring
  · simp [getSvgPath, effectiveRadius]
  · simp [getSvgPath, effectiveRadius]

/-- Witness for the amended C2 at the concrete scenario (100, 100, 20). -/
theorem controlOffset_extremes_witness :
    (0 : ℚ) < 100 ∧
    controlOffset (effectiveRadius 100 100 20) 1 =
      effectiveRadius 100 100 20 * (1 - K) :=
  ⟨by norm_num,
   (controlOffset_extremes 100 100 20 true (by norm_num) (by norm_num)
     (by norm_num)).2.2.1⟩

/-- Claim C5: when the measured box size has a non-positive dimension,
both `renderSquircle` variants return without touching any styling or
render state. -/
theorem render_noop_on_nonpositive_size (supports : Bool) (width height : ℚ)
    (o : Options) (o2 : FixedOptions) (nw : NaiveWorld) (fw : FixedWorld)
    (hwh : width ≤ 0 ∨ height ≤ 0) :
    renderSquircleNaive supports width height o nw = nw ∧
    renderSquircleFixed supports width height o2 fw = fw := by
  cases supports
  · exact ⟨rfl, rfl⟩
  · constructor <;> simp [renderSquircleNaive, renderSquircleFixed, hwh]

/-- Witness for C5 at the concrete 0×50 scenario. -/
theorem render_noop_on_nonpositive_size_witness :
    ((0 : ℚ) ≤ 0 ∨ (50 : ℚ) ≤ 0) ∧
    renderSquircleNaive true 0 50 borderOptions NaiveWorld.init = NaiveWorld.init ∧
    renderSquircleFixed true 0 50 { cornerRadius := 10, borderWidth := 4 }
      FixedWorld.init = FixedWorld.init := by
  have hwh : (0 : ℚ) ≤ 0 ∨ (50 : ℚ) ≤ 0 := Or.inl le_rfl
  have h := render_noop_on_nonpositive_size true 0 50 borderOptions
    { cornerRadius := 10, borderWidth := 4 } NaiveWorld.init FixedWorld.init hwh
  exact ⟨hwh, h.1, h.2⟩

/-- Claim C6: every border-mode render computes the inner outline from
`innerWidth = max(0, width - 2*borderWidth)`,
`innerHeight = max(0, height - 2*borderWidth)` and
`innerRadius = max(0, cornerRadius - borderWidth)`, and stores them in
the element's auxiliary style record. -/
theorem border_mode_inner_dimensions (width height cr cs b : ℚ) (p : Bool)
    (nw : NaiveWorld) (hw : 0 < width) (hh : 0 < height) (hb : 0 < b) :
    (renderSquircleNaive true width height ⟨cr, cs, p, some b⟩ nw).styles =
      upsertStyleById nw.styles (nw.counter + 1)
        ⟨b, qmax 0 (width - b * 2), qmax 0 (height - b * 2),
          getSvgPath (qmax 0 (width - b * 2)) (qmax 0 (height - b * 2))
            (qmax 0 (cr - b)) cs p⟩ := by
  have hg : ¬ (width ≤ 0 ∨ height ≤ 0) := by
    rintro (hx | hx)
    · exact absurd hx (not_le.mpr hw)
    · exact absurd hx (not_le.mpr hh)
  simp [renderSquircleNaive, hg, hb, hb.ne']

/-- Witness for C6 at the concrete scenario: cornerRadius 10 and
borderWidth 4 on a 100×50 element give inner dimensions (92, 42) and
inner radius 6. -/
theorem border_mode_inner_dimensions_witness :
    (0 : ℚ) < 100 ∧ (0 : ℚ) < 50 ∧ (0 : ℚ) < 4 ∧
    (renderSquircleNaive true 100 50 ⟨10, 1, true, some 4⟩ NaiveWorld.init).styles =
      [(1, ⟨4, 92, 42, getSvgPath 92 42 6 1 true⟩)] := by
  refine ⟨by norm_num, by norm_num, by norm_num, ?_⟩
  rw [border_mode_inner_dimensions 100 50 10 1 4 true NaiveWorld.init
    (by norm_num) (by norm_num) (by norm_num)]
  with_unfolding_all rfl

/-- Claim C8: `disconnect` is a no-op on an untracked element; on a
tracked element it cancels the observer, clears the clip region and the
inner-background custom property, removes every `squircle-N` marker
class together with its auxiliary style record, keeps unrelated classes,
and discards the render state. -/
theorem disconnect_cleanup (w : InitWorld) :
    (w.tracked = false → disconnect w = w) ∧
    (w.tracked = true →
      (disconnect w).tracked = false ∧
      (disconnect w).observerConnected = false ∧
      (disconnect w).clipPath = none ∧
      (disconnect w).innerBg = none ∧
      (disconnect w).squircleClasses = [] ∧
      (∀ q ∈ (disconnect w).styles, q.1 ∉ w.squircleClasses) ∧
      (disconnect w).otherClasses = w.otherClasses) := by
  constructor
  · intro h; simp [disconnect, h]
  · intro h
    refine ⟨?_, ?_, ?_, ?_, ?_, ?_, ?_⟩ <;> simp [disconnect, h]

/-- Witness for C8 at a tracked element after one border-mode render. -/
theorem disconnect_cleanup_witness :
    sampleInitWorld.tracked = true ∧
    (disconnect sampleInitWorld).clipPath = none ∧
    (disconnect sampleInitWorld).squircleClasses = [] :=
  ⟨rfl, ((disconnect_cleanup sampleInitWorld).2 rfl).2.2.1,
   ((disconnect_cleanup sampleInitWorld).2 rfl).2.2.2.2.1⟩

/-- Helper: `Math.max(0, Math.min(1, v))` is the identity on `[0, 1]`. -/
theorem clamp01_eq_self (v : ℚ) (h0 : 0 ≤ v) (h1 : v ≤ 1) : clamp01 v = v := by
  unfold clamp01 qmin qmax
  rcases eq_or_lt_of_le h1 with he | hlt
  · subst he; simp
  · rw [if_neg (not_le.mpr hlt)]
    rcases eq_or_lt_of_le h0 with he | hpos
    · rw [← he]; simp
    · rw [if_neg (not_le.mpr hpos)]

/-- Helper: a string that `parseFloat` parses to a number is nonempty. -/
theorem parseFloatModel_ne_empty {s : String} {v : ℚ}
    (hp : parseFloatModel s = some v) : s ≠ "" := by
  intro he
  subst he
  have hnone : parseFloatModel "" = none := by with_unfolding_all rfl
  rw [hnone] at hp
  exact Option.noConfusion hp

/-- Claim C9 (failing part): the attribute string `"0"` has numeric
value 0 ∈ [0,1], but `parseFloat("0") || 1` makes the derived
`cornerSmoothing` equal to 1, not 0. -/
theorem cornerSmoothing_attr_zero_maps_to_one :
    initializeElement false (some "0") none "0px" =
      some { cornerRadius := 16, cornerSmoothing := 1 } ∧
    (1 : ℚ) ≠ 0 :=
  ⟨by with_unfolding_all rfl, by norm_num⟩

/-- Helper: `Math.max(0, Math.min(1, v))` clamps values above 1 to 1. -/
theorem clamp01_of_one_lt (v : ℚ) (h : 1 < v) : clamp01 v = 1 := by
  unfold clamp01 qmin qmax
  rw [if_pos (le_of_lt h)]
  norm_num

/-- Helper: `Math.max(0, Math.min(1, v))` clamps negative values to 0. -/
theorem clamp01_of_neg (v : ℚ) (h : v < 0) : clamp01 v = 0 := by
  unfold clamp01 qmin qmax
  rw [if_neg (not_le.mpr (lt_trans h zero_lt_one)), if_pos (le_of_lt h)]

/-- Helper: the clamp fixes 1. -/
theorem clamp01_one : clamp01 1 = 1 := clamp01_eq_self 1 (by norm_num) le_rfl

/-- Claim C9 (amended): an already-tracked element is skipped, making
re-scan idempotent.  The derived `cornerSmoothing` clamps the
attribute's numeric value into [0,1]: for every attribute string whose
numeric value `v` lies in (0, 1] the derived value equals `v`, a value
above 1 clamps to 1, a negative value clamps to 0, and the default 1
applies when the attribute's value parses to 0 or to no number (the
`parseFloat(attr) || 1` fallback the counterexample exhibits).  The
derived `cornerRadius` comes from the explicit override attribute when
present, else from the element's existing rounded-corner styling, else
the fixed default 16 — where the default 16 also applies within the
chosen branch when its value parses to 0 or to no number (`|| 16`). -/
theorem initializeElement_derivation :
    (∀ (csAttr crAttr : Option String) (comp : String),
      initializeElement true csAttr crAttr comp = none) ∧
    (∀ (s comp : String) (crAttr : Option String) (v : ℚ),
      parseFloatModel s = some v → 0 < v → v ≤ 1 →
      (initializeElement false (some s) crAttr comp).map
        DerivedOptions.cornerSmoothing = some v) ∧
    (∀ (s comp : String) (crAttr : Option String) (v : ℚ),
      parseFloatModel s = some v → 1 < v →
      (initializeElement false (some s) crAttr comp).map
        DerivedOptions.cornerSmoothing = some 1) ∧
    (∀ (s comp : String) (crAttr : Option String) (v : ℚ),
      parseFloatModel s = some v → v < 0 →
      (initializeElement false (some s) crAttr comp).map
        DerivedOptions.cornerSmoothing = some 0) ∧
    (∀ (s comp : String) (crAttr : Option String),
      parseFloatModel s = some 0 →
      (initializeElement false (some s) crAttr comp).map
        DerivedOptions.cornerSmoothing = some 1) ∧
    (∀ (s comp : String) (crAttr : Option String),
      s ≠ "" → parseFloatModel s = none →
      (initializeElement false (some s) crAttr comp).map
        DerivedOptions.cornerSmoothing = some 1) ∧
    (∀ (s rs comp : String) (v vr : ℚ),
      parseFloatModel s = some v → parseFloatModel rs = some vr → vr ≠ 0 →
      (initializeElement false (some s) (some rs) comp).map
        DerivedOptions.cornerRadius = some vr) ∧
    (∀ (s rs comp : String) (v : ℚ),
      parseFloatModel s = some v → rs ≠ "" →
      (parseFloatModel rs = some 0 ∨ parseFloatModel rs = none) →
      (initializeElement false (some s) (some rs) comp).map
        DerivedOptions.cornerRadius = some 16) ∧
    (∀ (s comp : String) (v vc : ℚ),
      parseFloatModel s = some v → parseFloatModel comp = some vc → vc ≠ 0 →
      (initializeElement false (some s) none comp).map
        DerivedOptions.cornerRadius = some vc) ∧
    (∀ (s comp : String) (v : ℚ),
      parseFloatModel s = some v →
      (parseFloatModel comp = some 0 ∨ parseFloatModel comp = none) →
      (initializeElement false (some s) none comp).map
        DerivedOptions.cornerRadius = some 16) := by
  refine ⟨?_, ?_, ?_, ?_, ?_, ?_, ?_, ?_, ?_, ?_⟩
  · intro csAttr crAttr comp
    simp [initializeElement]
  · intro s comp crAttr v hp h0 h1
    have hs : s ≠ "" := parseFloatModel_ne_empty hp
    simp [initializeElement, attrTruthy, hs, hp, jsOr, h0.ne',
      clamp01_eq_self v h0.le h1]
  · intro s comp crAttr v hp hv
    have hs : s ≠ "" := parseFloatModel_ne_empty hp
    have hv0 : v ≠ 0 := ne_of_gt (lt_trans zero_lt_one hv)
    simp [initializeElement, attrTruthy, hs, hp, jsOr, hv0,
      clamp01_of_one_lt v hv]
  · intro s comp crAttr v hp hv
    have hs : s ≠ "" := parseFloatModel_ne_empty hp
    have hv0 : v ≠ 0 := ne_of_lt hv
    simp [initializeElement, attrTruthy, hs, hp, jsOr, hv0,
      clamp01_of_neg v hv]
  · intro s comp crAttr hp
    have hs : s ≠ "" := parseFloatModel_ne_empty hp
    simp [initializeElement, attrTruthy, hs, hp, jsOr, clamp01_one]
  · intro s comp crAttr hs hp
    simp [initializeElement, attrTruthy, hs, hp, jsOr, clamp01_one]
  · intro s rs comp v vr hp hrp hvr
    have hs : s ≠ "" := parseFloatModel_ne_empty hp
    have hrs : rs ≠ "" := parseFloatModel_ne_empty hrp
    simp [initializeElement, attrTruthy, hs, hrs, hrp, jsOr, hvr]
  · intro s rs comp v hp hrs hr
    have hs : s ≠ "" := parseFloatModel_ne_empty hp
    rcases hr with hr0 | hrn
    · simp [initializeElement, attrTruthy, hs, hrs, hr0, jsOr]
    · simp [initializeElement, attrTruthy, hs, hrs, hrn, jsOr]
  · intro s comp v vc hp hcp hvc
    have hs : s ≠ "" := parseFloatModel_ne_empty hp
    simp [initializeElement, attrTruthy, hs, hcp, jsOr, hvc]
  · intro s comp v hp hc
    have hs : s ≠ "" := parseFloatModel_ne_empty hp
    rcases hc with hc0 | hcn
    · simp [initializeElement, attrTruthy, hs, hc0, jsOr]
    · simp [initializeElement, attrTruthy, hs, hcn, jsOr]

/-- Witness for the amended C9: attribute `"0.5"` derives
cornerSmoothing 1/2, the override `"10"` derives cornerRadius 10, and a
tracked element is skipped. -/
theorem initializeElement_derivation_witness :
    parseFloatModel "0.5" = some (1 / 2 : ℚ) ∧ (0 : ℚ) < 1 / 2 ∧
    (1 / 2 : ℚ) ≤ 1 ∧
    (initializeElement false (some "0.5") none "8px").map
      DerivedOptions.cornerSmoothing = some (1 / 2 : ℚ) ∧
    parseFloatModel "10" = some (10 : ℚ) ∧ (10 : ℚ) ≠ 0 ∧
    (initializeElement false (some "0.5") (some "10") "8px").map
      DerivedOptions.cornerRadius = some (10 : ℚ) ∧
    initializeElement true (some "0.5") none "8px" = none := by
  have hp : parseFloatModel "0.5" = some (1 / 2 : ℚ) := by with_unfolding_all rfl
  have hr : parseFloatModel "10" = some (10 : ℚ) := by with_unfolding_all rfl
  exact ⟨hp, by norm_num, by norm_num,
    initializeElement_derivation.2.1 "0.5" "8px" none (1 / 2) hp
      (by norm_num) (by norm_num),
    hr, by norm_num,
    initializeElement_derivation.2.2.2.2.2.2.1 "0.5" "10" "8px" (1 / 2) 10 hp hr
      (by norm_num),
    initializeElement_derivation.1 (some "0.5") none "8px"⟩

end CornerSmoothing
